import Mathlib

/-!
Verification of the zkApps Merkle-voting contract (`src/Voting.ts`).

The contract state, the `init` method and the `vote` method are embedded as
pure Lean functions. Machine integers (`UInt32`) are modelled as `Nat` with
explicit range checks where the library arithmetic performs them. The circuit
assertions (`assertGreaterThan`, `assertLessThan`, `assertEquals`) make a
method call fail the proof; a method is therefore modelled as a function
returning `Option ContractState` where `none` means the transaction is
rejected with no state change (the ledger applies a call's state delta
atomically, so a failed call changes nothing).

The hash primitive (o1js `Poseidon.hash`) is an external collaborator.
The general theorems are parameterised over an arbitrary hash function
`poseidon : List Nat → Nat`; concrete witnesses and counterexamples
instantiate it with `poseidonModel`, a concrete stand-in defined below.
-/

/-- o1js `UInt32` values live in `[0, 2^32)`. -/
def uint32Bound : Nat := 4294967296

/-- `class Voter extends Struct({ publicKey: PublicKey, decision: UInt32 })`.
The public key is an opaque identifier, modelled as a `Nat`; `decision` is a
`UInt32`, modelled as a `Nat`. -/
structure Voter where
  publicKey : Nat
  decision : Nat
deriving DecidableEq, Repr

/-- `setDecision(decision)`: returns a new `Voter` with the same `publicKey`
and the given decision (`Voting.ts` lines 29-34). -/
def Voter.setDecision (v : Voter) (d : Nat) : Voter :=
  ⟨v.publicKey, d⟩

/-- `Voter.toFields`: the field encoding of the struct, in declaration order
(public key first, then the decision). -/
def Voter.toFields (v : Voter) : List Nat :=
  [v.publicKey, v.decision]

/-- `hash(): Field { return Poseidon.hash(Voter.toFields(this)); }`
(`Voting.ts` lines 25-27), parameterised by the hash primitive. -/
def Voter.hash (poseidon : List Nat → Nat) (v : Voter) : Nat :=
  poseidon (Voter.toFields v)

/-- Modelled from the spec: the MembershipProof root recomputation performed
by o1js `MerkleWitness.calculateRoot` (the o1js library is an external
collaborator, not part of this repository). Per spec §3, a membership proof
is "an ordered sequence of (sibling-hash, direction) pairs ... sufficient to
recompute a root from a given leaf hash": at each level the running hash is
combined with the sibling, on the left when the current node is a left child
and on the right otherwise. -/
def calculateRoot (poseidon : List Nat → Nat) : List (Bool × Nat) → Nat → Nat
  | [], h => h
  | (isLeft, sib) :: rest, h =>
      calculateRoot poseidon rest (if isLeft then poseidon [h, sib] else poseidon [sib, h])

/-- The on-chain state of the `Voting` contract (`Voting.ts` lines 47-51):
`root : Field`, `agreeVotes : UInt32`, `disagreeVotes : UInt32`,
`title : Field`, `description : Field`. -/
structure ContractState where
  root : Nat
  agreeVotes : Nat
  disagreeVotes : Nat
  title : Nat
  description : Nat
deriving DecidableEq, Repr

/-- `init()` (`Voting.ts` lines 53-58): `super.init()` zeroes every state
field, then the method sets `root` to the module-level `initialRoot`
(the externally supplied commitment) and both counters to zero. -/
def Voting.init (initialRoot : Nat) : ContractState :=
  ⟨initialRoot, 0, 0, 0, 0⟩

/-- The branch test `decision === UInt32.from(1)` at `Voting.ts` line 79.
`===` is JavaScript strict equality; on two objects it is true exactly when
they are the same reference. `UInt32.from(1)` constructs a fresh `UInt32`
object, which is never the same reference as the already-existing `decision`
argument, so the test is false for every value of `decision` and the `else`
branch always executes. -/
def strictEqFreshUInt32 (_decision : Nat) : Bool :=
  false

/-- `vote(voter, decision, path)` (`Voting.ts` lines 60-89), as a function of
the pre-state. In order:
* `voter = voter.setDecision(UInt32.from(0))` — the caller's claimed decision
  is discarded;
* `decision.assertGreaterThan(0)` and `decision.assertLessThan(3)` — the
  proof fails unless `0 < decision < 3`;
* `path.calculateRoot(voter.hash()).assertEquals(root)` — the proof fails
  unless the root recomputed from the zeroed record's hash equals the
  committed root;
* `newVoter = voter.setDecision(decision)`; `newRoot =
  path.calculateRoot(newVoter.hash())`;
* the branch on `decision === UInt32.from(1)` (see `strictEqFreshUInt32`):
  the `if` branch sets `agreeVotes := agreeVotes + 1`, the `else` branch sets
  `agreeVotes := disagreeVotes + 1` (the source writes the captured
  `currentDisagreeVotes.add(1)` into `this.agreeVotes`); `UInt32.add` is
  overflow-checked, so the sum must stay below `2^32`;
* `this.root.set(newRoot)`. -/
def Voting.vote (poseidon : List Nat → Nat) (s : ContractState) (voter : Voter)
    (decision : Nat) (path : List (Bool × Nat)) : Option ContractState :=
  if 0 < decision ∧ decision < 3 then
    if calculateRoot poseidon path (Voter.hash poseidon (voter.setDecision 0)) = s.root then
      if strictEqFreshUInt32 decision then
        if s.agreeVotes + 1 < uint32Bound then
          some ⟨calculateRoot poseidon path
                  (Voter.hash poseidon ((voter.setDecision 0).setDecision decision)),
                s.agreeVotes + 1, s.disagreeVotes, s.title, s.description⟩
        else none
      else
        if s.disagreeVotes + 1 < uint32Bound then
          some ⟨calculateRoot poseidon path
                  (Voter.hash poseidon ((voter.setDecision 0).setDecision decision)),
                s.disagreeVotes + 1, s.disagreeVotes, s.title, s.description⟩
        else none
    else none
  else none

/-! ## Concrete fixture

A two-leaf instance evaluated with a concrete hash model, used by witnesses
and counterexamples. -/

/-- Modelled from the spec: a concrete instance of the opaque
collision-resistant hash collaborator (spec §6), used only to evaluate the
contract semantics on concrete inputs. Injective on the small inputs the
fixture uses (the pair `(a + b, b)` is recoverable from the value). -/
def pairHash (a b : Nat) : Nat :=
  (a + b + 2) * (a + b + 2) + b

/-- Modelled from the spec: the concrete hash model on field lists, folding
`pairHash` over the elements. -/
def poseidonModel (xs : List Nat) : Nat :=
  xs.foldl pairHash 1

/-- Fixture voter A (left leaf), unvoted. -/
def voterA : Voter := ⟨1, 0⟩

/-- Fixture voter B (right leaf), unvoted. -/
def voterB : Voter := ⟨2, 0⟩

/-- Hash of the unvoted voter A leaf. -/
def leafA0 : Nat := Voter.hash poseidonModel voterA

/-- Hash of voter A's record after an agree vote. -/
def leafA1 : Nat := Voter.hash poseidonModel (voterA.setDecision 1)

/-- Hash of voter A's record after a disagree vote. -/
def leafA2 : Nat := Voter.hash poseidonModel (voterA.setDecision 2)

/-- Hash of the unvoted voter B leaf. -/
def leafB0 : Nat := Voter.hash poseidonModel voterB

/-- Membership proof for voter A: left child with sibling `leafB0`. The
sibling path is unchanged by updates to leaf A itself. -/
def pathA : List (Bool × Nat) := [(true, leafB0)]

/-- Membership proof for voter B built against the initial (stale, once voter
A's vote is accepted) tree: right child with sibling `leafA0`. -/
def pathB0 : List (Bool × Nat) := [(false, leafA0)]

/-- Membership proof for voter B after voter A's record was updated to
`leafA1`: right child with sibling `leafA1`. -/
def pathB1 : List (Bool × Nat) := [(false, leafA1)]

/-- Root committing to the unvoted set `[voterA, voterB]`. -/
def root0 : Nat := calculateRoot poseidonModel pathA leafA0

/-- Root after voter A's accepted agree vote. -/
def root1 : Nat := calculateRoot poseidonModel pathA leafA1

/-- Root after a disagree vote by voter A against the initial set. -/
def rootA2 : Nat := calculateRoot poseidonModel pathA leafA2

/-- Root after voter B's disagree vote following voter A's agree vote. -/
def rootB2 : Nat :=
  calculateRoot poseidonModel pathB1 (Voter.hash poseidonModel (voterB.setDecision 2))

/-! ## Helper lemmas -/

/-- `vote` fails whenever the root recomputed from the zeroed record's hash
differs from the committed root. -/
theorem vote_none_of_root_ne (poseidon : List Nat → Nat) (s : ContractState)
    (v : Voter) (d : Nat) (path : List (Bool × Nat))
    (h : calculateRoot poseidon path (Voter.hash poseidon (v.setDecision 0)) ≠ s.root) :
    Voting.vote poseidon s v d path = none := by
  unfold Voting.vote
  rw [if_neg h]
  split <;> rfl

/-- An accepted `vote` had a passing membership check: the root recomputed
from the zeroed record's hash equals the committed root. -/
theorem vote_some_membership (poseidon : List Nat → Nat) (s : ContractState)
    (v : Voter) (d : Nat) (path : List (Bool × Nat)) (s1 : ContractState)
    (h : Voting.vote poseidon s v d path = some s1) :
    calculateRoot poseidon path (Voter.hash poseidon (v.setDecision 0)) = s.root := by
  unfold Voting.vote at h
  split at h
  · split at h
    · assumption
    · exact absurd h (by simp)
  · exact absurd h (by simp)

/-- The outcome of `vote` depends on the supplied record only through its
public key: the method overwrites the record's decision field before any
other use. -/
theorem vote_eq_of_publicKey_eq (poseidon : List Nat → Nat) (s : ContractState)
    (v1 v2 : Voter) (d : Nat) (path : List (Bool × Nat))
    (h : v1.publicKey = v2.publicKey) :
    Voting.vote poseidon s v1 d path = Voting.vote poseidon s v2 d path := by
  have hz : v1.setDecision 0 = v2.setDecision 0 := by
    simp [Voter.setDecision, h]
  unfold Voting.vote
  rw [hz]

/-- The shape of every accepted vote's post-state: the root is recomputed
from the record updated to the requested decision, `agreeVotes` receives
`disagreeVotes + 1` (the source's `else` branch, which always runs), and the
remaining fields are copied from the pre-state. -/
theorem vote_some_shape (poseidon : List Nat → Nat) (s : ContractState)
    (v : Voter) (d : Nat) (path : List (Bool × Nat)) (s1 : ContractState)
    (h : Voting.vote poseidon s v d path = some s1) :
    s1 = ⟨calculateRoot poseidon path
            (Voter.hash poseidon ((v.setDecision 0).setDecision d)),
          s.disagreeVotes + 1, s.disagreeVotes, s.title, s.description⟩ := by
  unfold Voting.vote at h
  simp only [strictEqFreshUInt32, Bool.false_eq_true, if_false] at h
  repeat' split at h
  all_goals simp_all

/-! ## Claims -/

/-- C1: the claim states that a validated vote with `decision = 1` increments
`agreeVotes` and leaves `disagreeVotes` unchanged, and a validated vote with
`decision = 2` increments `disagreeVotes` and leaves `agreeVotes` unchanged.
The code does neither: the branch test `decision === UInt32.from(1)` compares
object references and is always false, and the `else` branch writes
`disagreeVotes + 1` into `agreeVotes`. Concretely: a disagree vote from the
freshly initialised state sets `agreeVotes` to 1 and leaves `disagreeVotes`
at 0; an agree vote from a state with `agreeVotes = 5, disagreeVotes = 0`
sets `agreeVotes` to 1, not 6. -/
theorem vote_updates_wrong_tally_concrete :
    Voting.vote poseidonModel (Voting.init root0) voterA 2 pathA
      = some ⟨rootA2, 1, 0, 0, 0⟩ ∧
    Voting.vote poseidonModel ⟨root0, 5, 0, 7, 9⟩ voterA 1 pathA
      = some ⟨root1, 1, 0, 7, 9⟩ := by
  decide

/-- C2: for every call to `vote` with a decision not in {1, 2} (`d ≤ 0` or
`d ≥ 3`), the call fails (the `assertGreaterThan` / `assertLessThan` checks
reject the proof) and, the transaction being rejected, no state field
changes. -/
theorem vote_rejects_invalid_decision (poseidon : List Nat → Nat)
    (s : ContractState) (v : Voter) (d : Nat) (path : List (Bool × Nat))
    (h : d ≤ 0 ∨ 3 ≤ d) :
    Voting.vote poseidon s v d path = none := by
  unfold Voting.vote
  rw [if_neg (by omega)]

/-- C2 witness: decision 3 is rejected on the concrete fixture. -/
theorem vote_rejects_invalid_decision_witness :
    Voting.vote poseidonModel (Voting.init root0) voterA 3 pathA = none :=
  vote_rejects_invalid_decision poseidonModel (Voting.init root0) voterA 3 pathA
    (Or.inr (by decide))

/-- C3: (1) whenever the root recomputed via the supplied proof from the hash
of the zeroed record differs from the committed root, `vote` fails with no
state change; (2) in particular, after an accepted vote that advanced the
root, any proof whose recomputation matches the stale pre-vote root is
rejected. -/
theorem vote_requires_current_root :
    (∀ (poseidon : List Nat → Nat) (s : ContractState) (v : Voter) (d : Nat)
        (path : List (Bool × Nat)),
      calculateRoot poseidon path (Voter.hash poseidon (v.setDecision 0)) ≠ s.root →
      Voting.vote poseidon s v d path = none) ∧
    (∀ (poseidon : List Nat → Nat) (s0 : ContractState) (v0 : Voter) (d0 : Nat)
        (path0 : List (Bool × Nat)) (s1 : ContractState) (v : Voter) (d : Nat)
        (path : List (Bool × Nat)),
      Voting.vote poseidon s0 v0 d0 path0 = some s1 →
      s1.root ≠ s0.root →
      calculateRoot poseidon path (Voter.hash poseidon (v.setDecision 0)) = s0.root →
      Voting.vote poseidon s1 v d path = none) := by
  constructor
  · exact vote_none_of_root_ne
  · intro poseidon s0 v0 d0 path0 s1 v d path h1 hadv hstale
    apply vote_none_of_root_ne
    rw [hstale]
    exact Ne.symm hadv

/-- C3 witness: a mismatched proof is rejected, and voter B's proof built
against the initial root is rejected once voter A's accepted vote has
advanced the root. -/
theorem vote_requires_current_root_witness :
    Voting.vote poseidonModel ⟨root1, 1, 0, 0, 0⟩ voterA 1 pathA = none ∧
    Voting.vote poseidonModel ⟨root1, 1, 0, 0, 0⟩ voterB 2 pathB0 = none :=
  ⟨vote_requires_current_root.1 poseidonModel ⟨root1, 1, 0, 0, 0⟩ voterA 1 pathA
      (by decide),
   vote_requires_current_root.2 poseidonModel (Voting.init root0) voterA 1 pathA
      ⟨root1, 1, 0, 0, 0⟩ voterB 2 pathB0 (by decide) (by decide) (by decide)⟩

/-- C4: the claim states that across accepted votes from `init` the counters
are non-decreasing and each accepted vote increments exactly one counter by
exactly one. The second conjunct fails: in the concrete two-vote run below,
the first accepted vote sets `agreeVotes` to 1, and the second accepted vote
(voter B, decision 2, proof against the advanced tree) again writes
`disagreeVotes + 1 = 1` into `agreeVotes`, so neither counter changes. -/
theorem second_accepted_vote_changes_no_counter :
    Voting.vote poseidonModel (Voting.init root0) voterA 1 pathA
      = some ⟨root1, 1, 0, 0, 0⟩ ∧
    Voting.vote poseidonModel ⟨root1, 1, 0, 0, 0⟩ voterB 2 pathB1
      = some ⟨rootB2, 1, 0, 0, 0⟩ := by
  decide

/-- C5 counterexample: voting twice in succession for the same identity with
the same valid decision does not succeed both times. Voter A's first agree
vote is accepted; the second call for voter A, with the membership proof
built against the then-current tree (same sibling path, since only A's own
leaf changed), is rejected: the zeroed record's hash recomputes the old root,
not the advanced one. -/
theorem revote_second_call_rejected :
    Voting.vote poseidonModel (Voting.init root0) voterA 1 pathA
      = some ⟨root1, 1, 0, 0, 0⟩ ∧
    Voting.vote poseidonModel ⟨root1, 1, 0, 0, 0⟩ voterA 1 pathA = none := by
  decide

/-- C5 amended: after an accepted vote that changed the committed root, a
second vote for the same identity using the membership proof built against
the then-current tree (the same sibling path) is rejected, whatever decision
it requests: the membership check zeroes the record, so its recomputed root
is the stale pre-vote root. -/
theorem vote_blocks_immediate_revote (poseidon : List Nat → Nat)
    (s : ContractState) (v : Voter) (d : Nat) (path : List (Bool × Nat))
    (s1 : ContractState) (v2 : Voter) (d2 : Nat)
    (h1 : Voting.vote poseidon s v d path = some s1)
    (hroot : s1.root ≠ s.root)
    (hpk : v2.publicKey = v.publicKey) :
    Voting.vote poseidon s1 v2 d2 path = none := by
  have hmem := vote_some_membership poseidon s v d path s1 h1
  apply vote_none_of_root_ne
  have hz : v2.setDecision 0 = v.setDecision 0 := by
    simp [Voter.setDecision, hpk]
  rw [hz, hmem]
  exact Ne.symm hroot

/-- C5 amended witness: voter A's re-vote (now requesting decision 2) is
rejected after A's accepted agree vote. -/
theorem vote_blocks_immediate_revote_witness :
    Voting.vote poseidonModel ⟨root1, 1, 0, 0, 0⟩ voterA 2 pathA = none :=
  vote_blocks_immediate_revote poseidonModel (Voting.init root0) voterA 1 pathA
    ⟨root1, 1, 0, 0, 0⟩ voterA 2 (by decide) (by decide) rfl

/-- C6: every accepted vote writes as the new committed root the root
recomputed with the same membership proof over the hash of the zeroed input
record with its decision field set to the decision argument. -/
theorem vote_new_root_from_updated_record (poseidon : List Nat → Nat)
    (s : ContractState) (v : Voter) (d : Nat) (path : List (Bool × Nat))
    (s1 : ContractState)
    (h : Voting.vote poseidon s v d path = some s1) :
    s1.root = calculateRoot poseidon path
        (Voter.hash poseidon ((v.setDecision 0).setDecision d)) := by
  rw [vote_some_shape poseidon s v d path s1 h]

/-- C6 witness: the root after voter A's accepted agree vote is the root
recomputed over the updated record's hash. -/
theorem vote_new_root_from_updated_record_witness :
    (⟨root1, 1, 0, 0, 0⟩ : ContractState).root
      = calculateRoot poseidonModel pathA
          (Voter.hash poseidonModel ((voterA.setDecision 0).setDecision 1)) :=
  vote_new_root_from_updated_record poseidonModel (Voting.init root0) voterA 1
    pathA ⟨root1, 1, 0, 0, 0⟩ (by decide)

/-- C7: the decision field of the caller-supplied record is overwritten with
zero before any validation, so a call's outcome is the same whatever decision
value the caller claimed in the record: the membership check always runs on
the record with decision 0. -/
theorem vote_ignores_claimed_decision (poseidon : List Nat → Nat)
    (s : ContractState) (v : Voter) (dClaimed d : Nat)
    (path : List (Bool × Nat)) :
    Voting.vote poseidon s (v.setDecision dClaimed) d path
      = Voting.vote poseidon s v d path :=
  vote_eq_of_publicKey_eq poseidon s (v.setDecision dClaimed) v d path rfl

/-- C8: `init` sets the root to the externally supplied initial commitment
and both counters to zero. -/
theorem init_sets_root_and_zero_counters (r : Nat) :
    (Voting.init r).root = r ∧ (Voting.init r).agreeVotes = 0 ∧
      (Voting.init r).disagreeVotes = 0 :=
  ⟨rfl, rfl, rfl⟩

/-- C9: no execution path of `vote` writes `disagreeVotes`, `title` or
`description`: a rejected call changes nothing, and an accepted call copies
all three fields from the pre-state (the always-taken `else` branch reads
`disagreeVotes` but writes only `agreeVotes` and `root`; the dead `if`
branch also writes only those two). -/
theorem vote_frame_disagree_title_description (poseidon : List Nat → Nat)
    (s : ContractState) (v : Voter) (d : Nat) (path : List (Bool × Nat))
    (s1 : ContractState)
    (h : Voting.vote poseidon s v d path = some s1) :
    s1.disagreeVotes = s.disagreeVotes ∧ s1.title = s.title ∧
      s1.description = s.description := by
  rw [vote_some_shape poseidon s v d path s1 h]
  exact ⟨rfl, rfl, rfl⟩

/-- C9 witness: voter A's accepted vote from a state with nonzero
`disagreeVotes`, `title` and `description` leaves all three unchanged. -/
theorem vote_frame_disagree_title_description_witness :
    (⟨root1, 4, 3, 7, 9⟩ : ContractState).disagreeVotes
        = (⟨root0, 0, 3, 7, 9⟩ : ContractState).disagreeVotes ∧
      (⟨root1, 4, 3, 7, 9⟩ : ContractState).title
        = (⟨root0, 0, 3, 7, 9⟩ : ContractState).title ∧
      (⟨root1, 4, 3, 7, 9⟩ : ContractState).description
        = (⟨root0, 0, 3, 7, 9⟩ : ContractState).description :=
  vote_frame_disagree_title_description poseidonModel ⟨root0, 0, 3, 7, 9⟩
    voterA 1 pathA ⟨root1, 4, 3, 7, 9⟩ (by decide)

/-- C10: two calls against the same state with the same decision argument and
the same proof, whose records agree on `publicKey` and differ only in their
decision field, have identical outcomes (the same `Option ContractState`). -/
theorem vote_outcome_depends_only_on_publicKey (poseidon : List Nat → Nat)
    (s : ContractState) (d : Nat) (path : List (Bool × Nat)) (v1 v2 : Voter)
    (h : v1.publicKey = v2.publicKey) :
    Voting.vote poseidon s v1 d path = Voting.vote poseidon s v2 d path :=
  vote_eq_of_publicKey_eq poseidon s v1 v2 d path h

/-- C10 witness: a record claiming decision 5 and the honest unvoted record
for the same key produce identical outcomes. -/
theorem vote_outcome_depends_only_on_publicKey_witness :
    Voting.vote poseidonModel (Voting.init root0) ⟨1, 5⟩ 1 pathA
      = Voting.vote poseidonModel (Voting.init root0) ⟨1, 0⟩ 1 pathA :=
  vote_outcome_depends_only_on_publicKey poseidonModel (Voting.init root0) 1
    pathA ⟨1, 5⟩ ⟨1, 0⟩ rfl
